import Mathlib

/-!
Shallow embedding of the token-lifecycle subsystem of the `aegis` repository
(Go sources under `aegis-server/util/jwt`, `aegis-server/domain/token`,
`aegis-server/api/auth` and the `refreshToken` / `RevokeToken` handlers of
`aegis-server/api/user`).

Modelling conventions:
- instants (`time.Time`) and durations (`time.Duration`) are `Int`
  nanoseconds, as in Go's time package;
- every `time.Now()` read a Go function performs is an explicit `Int`
  parameter of the corresponding Lean function, in source order;
- JWT strings are modelled symbolically by `TokenStr`: either a string that
  does not parse as a JWT, or a well-formed token carrying its claims, its
  signing-algorithm family and the secret it was signed with;
- fallible Go functions return `Except`;
- the in-memory blacklist map is an association list whose keys are kept
  unique by `add`.
-/

/-- Nanoseconds in one second (`time.Second`). -/
def nsPerSecond : Int := 1000000000

/-- Nanoseconds in one minute (`time.Minute`). -/
def nsPerMinute : Int := 60 * nsPerSecond

/-- `REFRESH_TOKEN_EXTRA_TIME = 1 * time.Minute` from `util/jwt/jwt.go`. -/
def REFRESH_TOKEN_EXTRA_TIME : Int := 1 * nsPerMinute

/-- The default token expiration resolved by `getTokenExpiration` when the
`AEGIS_JWT_EXP_TIME` environment variable is absent or invalid:
1440 minutes. -/
def DEFAULT_TOKEN_EXPIRATION : Int := 1440 * nsPerMinute

/-- `getTokenExpiration` from `util/jwt/jwt.go`: reads the optional
`AEGIS_JWT_EXP_TIME` environment value (minutes); a parseable positive
integer is used, anything else falls back to the 1440-minute default. -/
def getTokenExpiration (env : Option String) : Int :=
  match env with
  | none => DEFAULT_TOKEN_EXPIRATION
  | some s =>
    if s = "" then DEFAULT_TOKEN_EXPIRATION
    else match s.toInt? with
      | some minutes => if minutes > 0 then minutes * nsPerMinute else DEFAULT_TOKEN_EXPIRATION
      | none => DEFAULT_TOKEN_EXPIRATION

/-- The claim set of an aegis JWT (`TokenClaims` in `util/jwt/jwt.go`,
with the embedded `jwt.RegisteredClaims` fields flattened in: `id` is
`RegisteredClaims.ID`, the JTI). -/
structure TokenClaims where
  userId : String
  subject : String
  roles : List String
  permissions : List String
  tokenType : String
  id : String
  expiresAt : Int
  issuedAt : Int
  issuer : String
deriving DecidableEq

/-- Signing-algorithm family of a token, as far as the code inspects it:
the key function in `ValidateToken` only checks that the method is an
HMAC one (`*jwt.SigningMethodHMAC`). -/
inductive SigAlg where
  | hmac
  | nonHmac
deriving DecidableEq

/-- Symbolic model of a JWT string.  `malformed s` is any string `s` that
does not parse as a JWT; `signed claims alg secret` is a structurally
well-formed JWT carrying `claims`, signed with algorithm family `alg`
under `secret`. -/
inductive TokenStr where
  | malformed (raw : String)
  | signed (claims : TokenClaims) (alg : SigAlg) (secret : String)
deriving DecidableEq

/-- The claims carried by a well-formed token, if any. -/
def TokenStr.claimsOf : TokenStr → Option TokenClaims
  | .malformed _ => none
  | .signed c _ _ => some c

/-- The JTI carried by a well-formed token, if any. -/
def TokenStr.jtiOf : TokenStr → Option String :=
  fun t => (t.claimsOf).map (fun c => c.id)

/-- Whether the raw token string is empty (`gin`'s `binding:"required"`
rejects an empty string field; a structurally well-formed JWT is never
the empty string). -/
def TokenStr.isEmptyStr : TokenStr → Bool
  | .malformed s => s == ""
  | .signed _ _ _ => false

/-- `jwt.NewNumericDate` truncates its argument to whole seconds
(`TimePrecision = time.Second` in golang-jwt/v5). -/
def jwtNumericDate (t : Int) : Int :=
  nsPerSecond * (t / nsPerSecond)

/-- `TokenOutput` from `util/jwt/jwt.go`. -/
structure TokenOutput where
  token : TokenStr
  expiresAt : Int
deriving DecidableEq

/-- `generateTokenWithType` from `util/jwt/jwt.go`.  `tExp` and `tIat` are
the two `time.Now()` reads the Go function performs (the expiration-time
read and the issued-at read, in that order).  Note that the Go code never
sets `RegisteredClaims.ID`, so the JTI is the `string` zero value `""`. -/
def generateTokenWithType (userId subject : String) (roles permissions : List String)
    (tokenType : String) (expiration : Int) (secret : String) (tExp tIat : Int) :
    TokenOutput :=
  let expirationTime := tExp + expiration
  let claims : TokenClaims :=
    { userId := userId
      subject := subject
      roles := roles
      permissions := permissions
      tokenType := tokenType
      id := ""
      expiresAt := jwtNumericDate expirationTime
      issuedAt := jwtNumericDate tIat
      issuer := "aegis" }
  { token := TokenStr.signed claims SigAlg.hmac secret
    expiresAt := expirationTime }

/-- `TokenPair` from `util/jwt/jwt.go`. -/
structure TokenPair where
  accessToken : TokenStr
  refreshToken : TokenStr
  expiresAt : Int
  refreshExpiresAt : Int
deriving DecidableEq

/-- `GenerateTokenPair` from `util/jwt/jwt.go`.  `t1 … t6` are the six
`time.Now()` reads the call performs, in source order: `t1` for
`accessExpiration`, `t2` for `refreshExpiration`, `t3`/`t4` inside
`generateTokenWithType` for the access token, `t5`/`t6` inside
`generateTokenWithType` for the refresh token.  `tokenExpiration` is the
process-wide `TOKEN_EXPIRATION` configuration value and `secret` the
process-wide `JWT_SECRET`. -/
def generateTokenPair (userId subject : String) (roles permissions : List String)
    (tokenExpiration : Int) (secret : String) (t1 t2 t3 t4 t5 t6 : Int) : TokenPair :=
  let accessExpiration := t1 + tokenExpiration
  let refreshExpiration := t2 + (tokenExpiration + REFRESH_TOKEN_EXTRA_TIME)
  let access := generateTokenWithType userId subject roles permissions "access"
    tokenExpiration secret t3 t4
  let refresh := generateTokenWithType userId subject roles permissions "refresh"
    (tokenExpiration + REFRESH_TOKEN_EXTRA_TIME) secret t5 t6
  { accessToken := access.token
    refreshToken := refresh.token
    expiresAt := accessExpiration
    refreshExpiresAt := refreshExpiration }

/-- Failure modes of `jwt.ParseWithClaims` as driven by `ValidateToken`'s
key function. -/
inductive JwtError where
  | malformed
  | unexpectedSigningMethod
  | invalidSignature
  | expired
deriving DecidableEq

/-- The `error.Error()` strings golang-jwt/v5 produces for each failure
(the leading fixed part; `determineValidationError` only does substring
matching on them). -/
def jwtErrorMessage : JwtError → String
  | .malformed => "token is malformed"
  | .unexpectedSigningMethod => "token is unverifiable: error while executing keyfunc: unexpected signing method"
  | .invalidSignature => "token signature is invalid"
  | .expired => "token has invalid claims: token is expired"

/-- `ValidateToken` from `util/jwt/jwt.go` (the codec-level validation):
parse (malformed check), key function (HMAC-family check), claims
validation (expiry, invalid once `now ≥ exp`), signature verification.
golang-jwt/v5 validates claims before the signature and joins both errors
when both fail; since `determineValidationError` tests for "expired"
first, reporting the expiry error alone in that case is observationally
equivalent, so the expiry check is placed before the signature check. -/
def jwtValidateToken (secret : String) (now : Int) : TokenStr → Except JwtError TokenClaims
  | .malformed _ => .error .malformed
  | .signed claims alg s =>
    if alg ≠ SigAlg.hmac then .error .unexpectedSigningMethod
    else if claims.expiresAt ≤ now then .error .expired
    else if s ≠ secret then .error .invalidSignature
    else .ok claims

/-- Failure modes of `ValidateRefreshToken`. -/
inductive RefreshError where
  | jwt (e : JwtError)
  | notRefreshToken
deriving DecidableEq

/-- `ValidateRefreshToken` from `util/jwt/jwt.go`: `ValidateToken`, then
the token kind must be `"refresh"`. -/
def jwtValidateRefreshToken (secret : String) (now : Int) (t : TokenStr) :
    Except RefreshError TokenClaims :=
  match jwtValidateToken secret now t with
  | .error e => .error (.jwt e)
  | .ok claims =>
    if claims.tokenType ≠ "refresh" then .error .notRefreshToken
    else .ok claims

/-- Whether `pat` occurs at the start of `s` (character lists). -/
def listStartsWith : List Char → List Char → Bool
  | [], _ => true
  | _ :: _, [] => false
  | a :: as, b :: bs => a == b && listStartsWith as bs

/-- Whether `pat` occurs somewhere inside `s` (character lists). -/
def listHasSub (pat : List Char) : List Char → Bool
  | [] => listStartsWith pat []
  | c :: rest => listStartsWith pat (c :: rest) || listHasSub pat rest

/-- Go's `strings.Contains(s, pat)`. -/
def strContains (s pat : String) : Bool :=
  listHasSub pat.toList s.toList

/-- `determineValidationError` from `api/auth/validate.go`: maps the raw
JWT validation error message to the human-readable reason of the
validate endpoint. -/
def determineValidationError (errMsg : String) : String :=
  if strContains errMsg "expired" then "token expired"
  else if strContains errMsg "signature" then "invalid signature"
  else if strContains errMsg "malformed" then "malformed token"
  else if strContains errMsg "unexpected signing method" then "invalid signing method"
  else "invalid token"

/-- `BlacklistEntry` from `domain/token` (blacklist entry kept per revoked
JTI). -/
structure BlacklistEntry where
  jti : String
  expiresAt : Int
  revokedAt : Int
deriving DecidableEq

/-- `MemoryBlacklist` from `domain/token/memory.go`: the `map[string]*BlacklistEntry`
is modelled as an association list with unique keys (`add` removes any
previous binding of the same key before inserting). -/
structure MemoryBlacklist where
  entries : List (String × BlacklistEntry)
deriving DecidableEq

/-- `NewMemoryBlacklist`. -/
def MemoryBlacklist.empty : MemoryBlacklist := ⟨[]⟩

/-- `MemoryBlacklist.Add`: map insertion overwrites any existing entry for
the same JTI.  `now` is the `time.Now()` read recorded in `RevokedAt`. -/
def MemoryBlacklist.add (b : MemoryBlacklist) (jti : String) (expiresAt now : Int) :
    MemoryBlacklist :=
  ⟨(jti, { jti := jti, expiresAt := expiresAt, revokedAt := now }) ::
    b.entries.filter (fun p => p.1 ≠ jti)⟩

/-- `MemoryBlacklist.IsBlacklisted`: map-key lookup. -/
def MemoryBlacklist.isBlacklisted (b : MemoryBlacklist) (jti : String) : Bool :=
  b.entries.any (fun p => p.1 == jti)

/-- `MemoryBlacklist.Cleanup`: deletes every entry whose `ExpiresAt` is
`Before(now)` (strictly before), and returns the new state together with
the number of removed entries. -/
def MemoryBlacklist.cleanup (b : MemoryBlacklist) (now : Int) :
    MemoryBlacklist × Nat :=
  let removed := b.entries.filter (fun p => p.2.expiresAt < now)
  let kept := b.entries.filter (fun p => ¬ p.2.expiresAt < now)
  (⟨kept⟩, removed.length)

/-- `MemoryBlacklist.Size`. -/
def MemoryBlacklist.size (b : MemoryBlacklist) : Nat :=
  b.entries.length

/-- `UserInfo` from `api/auth/validate.go`. -/
structure UserInfo where
  id : String
  subject : String
  roles : List String
  permissions : List String
deriving DecidableEq

/-- `ValidateTokenResponse` from `api/auth/validate.go`.  The Go `Error`
field is a plain string tagged `omitempty`: the empty string stands for
an omitted field. -/
structure ValidateTokenResponse where
  valid : Bool
  user : Option UserInfo := none
  expiresAt : Option Int := none
  error : String := ""
deriving DecidableEq

/-- A request body presented to an endpoint whose JSON binding requires a
single token field: either invalid JSON, a body without the field, or a
body carrying a token string. -/
inductive TokenRequest where
  | badJson
  | noToken
  | token (t : TokenStr)
deriving DecidableEq

/-- `gin`'s `ShouldBindJSON` with `binding:"required"` on the token field:
fails on invalid JSON, on a missing field and on an empty string value. -/
def bindTokenRequest : TokenRequest → Option TokenStr
  | .badJson => none
  | .noToken => none
  | .token t => if t.isEmptyStr then none else some t

/-- HTTP outcome of the validate endpoint: 400 with a binding-error body,
or 200 with a `ValidateTokenResponse` body. -/
inductive ValidateHttpResponse where
  | badRequest
  | ok (body : ValidateTokenResponse)
deriving DecidableEq

/-- HTTP status code of a validate-endpoint outcome. -/
def ValidateHttpResponse.status : ValidateHttpResponse → Nat
  | .badRequest => 400
  | .ok _ => 200

/-- The success body built by `ValidateToken` for a valid token. -/
def validateOkBody (claims : TokenClaims) : ValidateTokenResponse :=
  { valid := true
    user := some { id := claims.userId, subject := claims.subject,
                   roles := claims.roles, permissions := claims.permissions }
    expiresAt := some claims.expiresAt
    error := "" }

/-- `ValidateToken` handler from `api/auth/validate.go`.  `blacklist` is
the current `token.GlobalBlacklist` (`none` when uninitialized), `now`
the wall-clock instant of the request, `secret` the process JWT secret. -/
def validateTokenEndpoint (secret : String) (now : Int)
    (blacklist : Option MemoryBlacklist) (req : TokenRequest) : ValidateHttpResponse :=
  match bindTokenRequest req with
  | none => .badRequest
  | some tok =>
    match jwtValidateToken secret now tok with
    | .error e =>
      .ok { valid := false, error := determineValidationError (jwtErrorMessage e) }
    | .ok claims =>
      if (match blacklist with
          | some bl => bl.isBlacklisted claims.id
          | none => false) then
        .ok { valid := false, error := "token revoked" }
      else
        .ok (validateOkBody claims)

/-- `IntrospectTokenResponse` from the introspection handler
(`api/auth`, RFC 7662 shaping).  Every optional field carries its Go zero
value when absent; `introspectResponseKeys` reproduces the `omitempty`
serialization rule. -/
structure IntrospectTokenResponse where
  active : Bool
  scope : String := ""
  clientId : String := ""
  username : String := ""
  tokenType : String := ""
  exp : Int := 0
  iat : Int := 0
  sub : String := ""
  iss : String := ""
  roles : List String := []
  permissions : List String := []
deriving DecidableEq

/-- The JSON keys `encoding/json` emits for an `IntrospectTokenResponse`:
`active` always (no `omitempty`); every other field only when it differs
from its Go zero value (`omitempty`). -/
def introspectResponseKeys (r : IntrospectTokenResponse) : List String :=
  ["active"]
    ++ (if r.scope ≠ "" then ["scope"] else [])
    ++ (if r.clientId ≠ "" then ["client_id"] else [])
    ++ (if r.username ≠ "" then ["username"] else [])
    ++ (if r.tokenType ≠ "" then ["token_type"] else [])
    ++ (if r.exp ≠ 0 then ["exp"] else [])
    ++ (if r.iat ≠ 0 then ["iat"] else [])
    ++ (if r.sub ≠ "" then ["sub"] else [])
    ++ (if r.iss ≠ "" then ["iss"] else [])
    ++ (if r.roles ≠ [] then ["roles"] else [])
    ++ (if r.permissions ≠ [] then ["permissions"] else [])

/-- `buildScopeString` from the introspection handler: appends `"role:" ++ r`
for every non-empty role `r`, then every non-empty permission verbatim,
and joins with single spaces (`strings.Join(scopes, " ")`). -/
def buildScopeString (roles permissions : List String) : String :=
  let scopes := roles.foldl
    (fun acc role => if role != "" then acc ++ ["role:" ++ role] else acc) []
  let scopes := permissions.foldl
    (fun acc permission => if permission != "" then acc ++ [permission] else acc) scopes
  String.intercalate " " scopes

/-- An introspection request body (`token` required, `token_type_hint`
optional and unused beyond logging). -/
inductive IntrospectRequest where
  | badJson
  | noToken
  | token (t : TokenStr) (hint : String)
deriving DecidableEq

/-- Binding for the introspection request: same rules as for the other
token endpoints; the hint is accepted but not enforced. -/
def bindIntrospectRequest : IntrospectRequest → Option TokenStr
  | .badJson => none
  | .noToken => none
  | .token t _ => if t.isEmptyStr then none else some t

/-- HTTP outcome of the introspect endpoint. -/
inductive IntrospectHttpResponse where
  | badRequest
  | okJson (body : IntrospectTokenResponse)
deriving DecidableEq

/-- HTTP status code of an introspect-endpoint outcome. -/
def IntrospectHttpResponse.status : IntrospectHttpResponse → Nat
  | .badRequest => 400
  | .okJson _ => 200

/-- The active-token introspection body built by `IntrospectToken`
(`exp`/`iat` are `Unix()` seconds of the claim instants). -/
def introspectActiveBody (claims : TokenClaims) : IntrospectTokenResponse :=
  { active := true
    scope := buildScopeString claims.roles claims.permissions
    clientId := "aegis-default-client"
    username := claims.subject
    tokenType := "Bearer"
    exp := claims.expiresAt / nsPerSecond
    iat := claims.issuedAt / nsPerSecond
    sub := claims.userId
    iss := claims.issuer
    roles := claims.roles
    permissions := claims.permissions }

/-- `IntrospectToken` handler (`api/auth`): decode, optional blacklist
check, then RFC 7662 shaping; every decode failure and the revoked case
collapse to the minimal `{active:false}` body. -/
def introspectTokenEndpoint (secret : String) (now : Int)
    (blacklist : Option MemoryBlacklist) (req : IntrospectRequest) :
    IntrospectHttpResponse :=
  match bindIntrospectRequest req with
  | none => .badRequest
  | some tok =>
    match jwtValidateToken secret now tok with
    | .error _ => .okJson { active := false }
    | .ok claims =>
      if (match blacklist with
          | some bl => bl.isBlacklisted claims.id
          | none => false) then
        .okJson { active := false }
      else
        .okJson (introspectActiveBody claims)

/-- HTTP outcome of the revoke endpoint (`RevokeToken` in
`api/user/api.go`): 400 with the binder's error body, 500 when the
global blacklist is uninitialized, 400 `{"error":"Invalid token"}` when
the token fails validation, or 200 `{success:true, message}`. -/
inductive RevokeHttpResponse where
  | bindError
  | unavailable
  | invalidToken
  | success (message : String)
deriving DecidableEq

/-- HTTP status code of a revoke-endpoint outcome. -/
def RevokeHttpResponse.status : RevokeHttpResponse → Nat
  | .bindError => 400
  | .unavailable => 500
  | .invalidToken => 400
  | .success _ => 200

/-- `RevokeToken` handler from `api/user/api.go`: bind, nil-blacklist
check (before any token validation), validate, idempotency check, then
`Add(claims.ID, time.Unix(claims.ExpiresAt.Unix(), 0))`.  Returns the
response together with the resulting global blacklist. -/
def revokeTokenEndpoint (secret : String) (now : Int)
    (blacklist : Option MemoryBlacklist) (req : TokenRequest) :
    RevokeHttpResponse × Option MemoryBlacklist :=
  match bindTokenRequest req with
  | none => (.bindError, blacklist)
  | some tok =>
    match blacklist with
    | none => (.unavailable, none)
    | some bl =>
      match jwtValidateToken secret now tok with
      | .error _ => (.invalidToken, some bl)
      | .ok claims =>
        if bl.isBlacklisted claims.id then
          (.success "Token already revoked", some bl)
        else
          (.success "Token revoked successfully",
            some (bl.add claims.id (nsPerSecond * (claims.expiresAt / nsPerSecond)) now))

/-- Whether a character is a hexadecimal digit. -/
def isHexChar (c : Char) : Bool :=
  c.isDigit || ('a' ≤ c && c ≤ 'f') || ('A' ≤ c && c ≤ 'F')

/-- Whether a string is a canonical `8-4-4-4-12` UUID. -/
def isCanonicalUuid (s : String) : Bool :=
  let cs := s.toList
  cs.length == 36 &&
    (List.range 36).all (fun i =>
      if i == 8 || i == 13 || i == 18 || i == 23 then cs.getD i ' ' == '-'
      else isHexChar (cs.getD i ' '))

/-- Lower-case an ASCII letter, leaving other characters unchanged. -/
def lowerHexChar (c : Char) : Char :=
  if 'A' ≤ c && c ≤ 'Z' then Char.ofNat (c.toNat + 32) else c

/-- `uuid.Parse` followed by rendering the UUID back to its canonical
(lower-case) string form, restricted to canonical-form inputs — the only
shape the aegis code ever feeds it.  `none` models a parse error. -/
def uuidParse (s : String) : Option String :=
  if isCanonicalUuid s then some (String.mk (s.toList.map lowerHexChar)) else none

/-- The user aggregate as consumed by the refresh handler
(`user.User`: `Id`, `Subject`, `Roles`, `Permissions`; role and
permission values are plain strings). -/
structure StoredUser where
  id : String
  subject : String
  roles : List String
  permissions : List String
deriving DecidableEq

/-- HTTP outcome of `POST /users/refresh` (`refreshToken` in
`api/user/api.go`): 400 on binding failure, 401 for an invalid refresh
token / unparsable user id / unknown user, 200 with the login-shaped
body otherwise. -/
inductive RefreshHttpResponse where
  | bindError
  | invalidRefreshToken
  | invalidUserId
  | userNotFound
  | okLogin (user : StoredUser) (pair : TokenPair)
deriving DecidableEq

/-- HTTP status code of a refresh-endpoint outcome. -/
def RefreshHttpResponse.status : RefreshHttpResponse → Nat
  | .bindError => 400
  | .invalidRefreshToken => 401
  | .invalidUserId => 401
  | .userNotFound => 401
  | .okLogin _ _ => 200

/-- `refreshToken` handler from `api/user/api.go`: bind, validate the
refresh token, parse the user id out of the claims, load the user from
the user store (`userService.GetUserById`, a database read), and issue a
brand-new pair from the *stored* user's subject, roles and permissions.
`store` is the user store; `t1 … t6` are the clock reads of the inner
`GenerateTokenPair` call. -/
def refreshTokenEndpoint (store : String → Option StoredUser) (secret : String)
    (now : Int) (tokenExpiration : Int) (t1 t2 t3 t4 t5 t6 : Int)
    (req : TokenRequest) : RefreshHttpResponse :=
  match bindTokenRequest req with
  | none => .bindError
  | some tok =>
    match jwtValidateRefreshToken secret now tok with
    | .error _ => .invalidRefreshToken
    | .ok claims =>
      match uuidParse claims.userId with
      | none => .invalidUserId
      | some userId =>
        match store userId with
        | none => .userNotFound
        | some user =>
          .okLogin user
            (generateTokenPair user.id user.subject user.roles user.permissions
              tokenExpiration secret t1 t2 t3 t4 t5 t6)

/-- The scope string exactly as the specification words it: every role
prefixed with `role:` and every permission verbatim, space-joined, with
no non-emptiness filtering.  Stated from the spec, for comparison with
the source-derived `buildScopeString`. -/
def specScopeString (roles permissions : List String) : String :=
  String.intercalate " " (roles.map (fun role => "role:" ++ role) ++ permissions)

/-- Adding a JTI makes it blacklisted. -/
theorem MemoryBlacklist.isBlacklisted_add_self (b : MemoryBlacklist) (j : String)
    (e n : Int) : (b.add j e n).isBlacklisted j = true := by
  simp [MemoryBlacklist.add, MemoryBlacklist.isBlacklisted]

/-- An accumulation loop that keeps the elements satisfying `q`, mapped
through `g`, appends them to the accumulator. -/
theorem foldlKeepAux (g : String → String) (q : String → Bool) (l acc : List String) :
    l.foldl (fun a x => if q x then a ++ [g x] else a) acc
      = acc ++ (l.filter q).map g := by
  induction l generalizing acc with
  | nil => simp
  | cons h t ih =>
    rw [List.foldl_cons, List.filter_cons]
    cases hq : q h with
    | false => simp [hq, ih]
    | true => simp [hq, ih]

/-- An accumulation loop that keeps the elements satisfying `q` appends
them to the accumulator. -/
theorem foldlKeepIdAux (q : String → Bool) (l acc : List String) :
    l.foldl (fun a x => if q x then a ++ [x] else a) acc
      = acc ++ l.filter q := by
  induction l generalizing acc with
  | nil => simp
  | cons h t ih =>
    rw [List.foldl_cons, List.filter_cons]
    cases hq : q h with
    | false => simp [hq, ih]
    | true => simp [hq, ih]

/-- Closed form of `buildScopeString`: non-empty roles `role:`-prefixed,
then non-empty permissions verbatim, space-joined. -/
theorem buildScopeString_eq (roles permissions : List String) :
    buildScopeString roles permissions
      = String.intercalate " "
          ((roles.filter (fun x => x != "")).map (fun x => "role:" ++ x)
            ++ permissions.filter (fun x => x != "")) := by
  unfold buildScopeString
  simp only [foldlKeepAux, foldlKeepIdAux]
  simp

/-- C1: `generateTokenWithType` never sets `RegisteredClaims.ID`, so for
every call to `GenerateTokenPair` both returned tokens carry the JTI
`""` — the same value on every token of every issuance, never fresh and
never distinct within a pair.  This contradicts the spec's claim of a
fresh, globally unique JTI per issuance. -/
theorem generated_tokens_always_empty_jti (u s : String) (r p : List String)
    (E : Int) (sec : String) (t1 t2 t3 t4 t5 t6 : Int) :
    (generateTokenPair u s r p E sec t1 t2 t3 t4 t5 t6).accessToken.jtiOf = some ""
    ∧ (generateTokenPair u s r p E sec t1 t2 t3 t4 t5 t6).refreshToken.jtiOf = some "" :=
  ⟨rfl, rfl⟩

/-- C5 counterexample input: a pair generated while one nanosecond-scale
second elapses between the two `time.Now()` reads that compute the two
pair-level expiries. -/
def cexPairC5 : TokenPair :=
  generateTokenPair "u" "s" [] [] DEFAULT_TOKEN_EXPIRATION "sec"
    0 nsPerSecond 0 0 0 0

/-- C5 counterexample: for this concrete pair returned by
`GenerateTokenPair`, `refresh_expires_at - expires_at` is the grace
interval plus one second, not the grace interval exactly, refuting the
claim that the difference always equals the configured grace interval. -/
theorem pair_expiry_gap_not_exact_counterexample :
    cexPairC5.refreshExpiresAt - cexPairC5.expiresAt
      = REFRESH_TOKEN_EXTRA_TIME + nsPerSecond
    ∧ cexPairC5.refreshExpiresAt - cexPairC5.expiresAt ≠ REFRESH_TOKEN_EXTRA_TIME := by
  decide

/-- C5 amended: the gap between the two pair-level expiries equals the
grace interval plus the clock drift between the two `time.Now()` reads
that compute them; whenever the clock does not run backwards the refresh
expiry is strictly later than the access expiry, and the gap is exactly
the grace interval precisely when the two reads coincide. -/
theorem pair_expiry_gap_equals_grace_plus_drift (u s : String) (r p : List String)
    (E : Int) (sec : String) (t1 t2 t3 t4 t5 t6 : Int) :
    (generateTokenPair u s r p E sec t1 t2 t3 t4 t5 t6).refreshExpiresAt
        - (generateTokenPair u s r p E sec t1 t2 t3 t4 t5 t6).expiresAt
      = (t2 - t1) + REFRESH_TOKEN_EXTRA_TIME
    ∧ (t1 ≤ t2 →
        (generateTokenPair u s r p E sec t1 t2 t3 t4 t5 t6).expiresAt
          < (generateTokenPair u s r p E sec t1 t2 t3 t4 t5 t6).refreshExpiresAt) := by
  constructor
  · simp [generateTokenPair]
    ring
  · intro hle
    simp [generateTokenPair, REFRESH_TOKEN_EXTRA_TIME, nsPerMinute, nsPerSecond]
    omega

/-- C5 witness: the amended theorem applied at a concrete issuance with
coinciding clock reads. -/
theorem pair_expiry_gap_equals_grace_plus_drift_witness :
    (generateTokenPair "u" "s" [] [] DEFAULT_TOKEN_EXPIRATION "sec" 0 0 0 0 0 0).refreshExpiresAt
        - (generateTokenPair "u" "s" [] [] DEFAULT_TOKEN_EXPIRATION "sec" 0 0 0 0 0 0).expiresAt
      = (0 - 0) + REFRESH_TOKEN_EXTRA_TIME
    ∧ (generateTokenPair "u" "s" [] [] DEFAULT_TOKEN_EXPIRATION "sec" 0 0 0 0 0 0).expiresAt
        < (generateTokenPair "u" "s" [] [] DEFAULT_TOKEN_EXPIRATION "sec" 0 0 0 0 0 0).refreshExpiresAt := by
  have h := pair_expiry_gap_equals_grace_plus_drift "u" "s" [] [] DEFAULT_TOKEN_EXPIRATION "sec" 0 0 0 0 0 0
  exact ⟨h.1, h.2 (by decide)⟩

/-- C6 counterexample input: a blacklist holding a single entry whose
natural expiry equals the current instant exactly. -/
def cexBlC6 : MemoryBlacklist := MemoryBlacklist.empty.add "j" 100 50

/-- C6 counterexample: running `Cleanup` at exactly the entry's expiry
instant removes nothing — the removed count is 0 and the entry is still
blacklisted — refuting the claim that an entry whose expiry equals the
current time is removed. -/
theorem cleanup_keeps_boundary_entry_counterexample :
    (cexBlC6.cleanup 100).2 = 0
    ∧ (cexBlC6.cleanup 100).1.isBlacklisted "j" = true
    ∧ (cexBlC6.cleanup 100).1.size = 1 := by
  decide

/-- C6 amended: `Cleanup` removes exactly the entries whose natural
expiry is strictly before the current time, keeps every entry whose
expiry is at or after it (an entry expiring exactly now survives), and
returns the number of removed entries; removed count plus remaining size
equals the previous size. -/
theorem cleanup_removes_exactly_strictly_expired (b : MemoryBlacklist) (now : Int) :
    (b.cleanup now).2 = (b.entries.filter (fun q => decide (q.2.expiresAt < now))).length
    ∧ (b.cleanup now).2 + (b.cleanup now).1.size = b.size
    ∧ (∀ q ∈ b.entries, now ≤ q.2.expiresAt → q ∈ (b.cleanup now).1.entries)
    ∧ (∀ q ∈ (b.cleanup now).1.entries, ¬ q.2.expiresAt < now) := by
  refine ⟨rfl, ?_, ?_, ?_⟩
  · have h := List.length_eq_length_filter_add (l := b.entries)
      (fun q => decide (q.2.expiresAt < now))
    simp only [MemoryBlacklist.cleanup, MemoryBlacklist.size, decide_not]
    omega
  · intro q hq hle
    simp only [MemoryBlacklist.cleanup, List.mem_filter]
    exact ⟨hq, by simpa using not_lt.mpr hle⟩
  · intro q hq
    simp only [MemoryBlacklist.cleanup, List.mem_filter] at hq
    simpa using hq.2

/-- C6 witness: the amended theorem applied to a concrete blacklist,
read off at the boundary instant. -/
theorem cleanup_removes_exactly_strictly_expired_witness :
    (cexBlC6.cleanup 100).2
      = (cexBlC6.entries.filter (fun q => decide (q.2.expiresAt < 100))).length
    ∧ (cexBlC6.cleanup 100).2 + (cexBlC6.cleanup 100).1.size = cexBlC6.size
    ∧ ("j", { jti := "j", expiresAt := 100, revokedAt := 50 : BlacklistEntry })
        ∈ (cexBlC6.cleanup 100).1.entries := by
  have h := cleanup_removes_exactly_strictly_expired cexBlC6 100
  exact ⟨h.1, h.2.1,
    h.2.2.1 ("j", { jti := "j", expiresAt := 100, revokedAt := 50 }) (by decide) (by decide)⟩

/-- C7 counterexample: a request whose body carries an empty token string
fails gin's `binding:"required"` check and the validate endpoint answers
HTTP 400, refuting the claim that every request gets HTTP 200. -/
theorem validate_empty_token_gets_400_counterexample :
    (validateTokenEndpoint "s" 0 none (.token (.malformed ""))).status = 400
    ∧ (validateTokenEndpoint "s" 0 none (.token (.malformed ""))).status ≠ 200 := by
  decide

/-- C7 amended: for every request whose body binds (well-formed JSON with
a non-empty token string), the validate endpoint answers HTTP 200 and
carries the decision in the body: a `ValidateTokenResponse` whose
`error` field is non-empty exactly when `valid` is false.  Rejected
token input never produces a 4xx/5xx; only a request body that fails
JSON binding does. -/
theorem validate_bound_request_always_200 (secret : String) (now : Int)
    (bl : Option MemoryBlacklist) (req : TokenRequest) (tok : TokenStr)
    (h : bindTokenRequest req = some tok) :
    (validateTokenEndpoint secret now bl req).status = 200
    ∧ ∃ body, validateTokenEndpoint secret now bl req = .ok body
        ∧ (body.valid = false ↔ body.error ≠ "") := by
  cases hv : jwtValidateToken secret now tok with
  | error e =>
    have hne : determineValidationError (jwtErrorMessage e) ≠ "" := by
      cases e <;> decide
    refine ⟨?_, ⟨⟨false, none, none, determineValidationError (jwtErrorMessage e)⟩,
      ?_, by simpa using hne⟩⟩
    · simp [validateTokenEndpoint, h, hv, ValidateHttpResponse.status]
    · simp [validateTokenEndpoint, h, hv]
  | ok claims =>
    by_cases hb : (match bl with
        | some b => b.isBlacklisted claims.id
        | none => false) = true
    · refine ⟨?_, ⟨⟨false, none, none, "token revoked"⟩, ?_, by simp⟩⟩
      · simp [validateTokenEndpoint, h, hv, hb, ValidateHttpResponse.status]
      · simp [validateTokenEndpoint, h, hv, hb]
    · refine ⟨?_, ⟨validateOkBody claims, ?_, by simp [validateOkBody]⟩⟩
      · simp [validateTokenEndpoint, h, hv, hb, ValidateHttpResponse.status]
      · simp [validateTokenEndpoint, h, hv, hb]

/-- C7 witness: the amended theorem applied to a concrete rejected
token. -/
theorem validate_bound_request_always_200_witness :
    (validateTokenEndpoint "s" 0 none (.token (.malformed "x"))).status = 200 := by
  exact (validate_bound_request_always_200 "s" 0 none (.token (.malformed "x"))
    (.malformed "x") (by decide)).1

/-- Unexpired claims used by the C4 counterexample tokens. -/
def cexClaimsC4 : TokenClaims :=
  { userId := "u", subject := "a@x", roles := [], permissions := []
    tokenType := "access", id := "", expiresAt := nsPerSecond * 100
    issuedAt := 0, issuer := "aegis" }

/-- C4 counterexample: three token-shaped inputs rejected for three
different cryptographic reasons (malformed, bad signature, wrong
signing algorithm) receive three different error strings from the
validate endpoint, so the response does reveal which check failed,
refuting the claim of a single indistinguishable invalid signal. -/
theorem validate_crypto_reasons_distinguished_counterexample :
    validateTokenEndpoint "s" 0 none (.token (.malformed "x"))
      = .ok ⟨false, none, none, "malformed token"⟩
    ∧ validateTokenEndpoint "s" 0 none (.token (.signed cexClaimsC4 .hmac "wrong"))
      = .ok ⟨false, none, none, "invalid signature"⟩
    ∧ validateTokenEndpoint "s" 0 none (.token (.signed cexClaimsC4 .nonHmac "s"))
      = .ok ⟨false, none, none, "invalid signing method"⟩
    ∧ ("malformed token" : String) ≠ "invalid signature" := by
  decide

/-- C4 amended: every cryptographic rejection yields HTTP 200 with a
uniform `valid=false`, but the `error` field names the failed check —
`"malformed token"`, `"invalid signature"` and
`"invalid signing method"` respectively — so the reasons are
distinguished to callers rather than collapsed to one generic signal. -/
theorem validate_crypto_failure_valid_false_named_reason (secret : String)
    (now : Int) (bl : Option MemoryBlacklist) (tok : TokenStr) (e : JwtError)
    (h1 : bindTokenRequest (.token tok) = some tok)
    (h2 : jwtValidateToken secret now tok = .error e) :
    validateTokenEndpoint secret now bl (.token tok)
      = .ok ⟨false, none, none, determineValidationError (jwtErrorMessage e)⟩
    ∧ determineValidationError (jwtErrorMessage .malformed) = "malformed token"
    ∧ determineValidationError (jwtErrorMessage .invalidSignature) = "invalid signature"
    ∧ determineValidationError (jwtErrorMessage .unexpectedSigningMethod)
        = "invalid signing method" := by
  refine ⟨?_, by decide, by decide, by decide⟩
  simp [validateTokenEndpoint, h1, h2]

/-- C4 witness: the amended theorem applied to a concrete malformed
token. -/
theorem validate_crypto_failure_valid_false_named_reason_witness :
    validateTokenEndpoint "s" 0 none (.token (.malformed "x"))
      = .ok ⟨false, none, none, determineValidationError (jwtErrorMessage .malformed)⟩ :=
  (validate_crypto_failure_valid_false_named_reason "s" 0 none (.malformed "x")
    .malformed (by decide) rfl).1

/-- C8: whenever the introspect endpoint decides a token inactive (any
decode failure or a revoked JTI), the 200 body it returns is exactly the
minimal inactive response and, under Go's `omitempty` serialization,
its JSON object carries the single key `"active"`. -/
theorem introspect_inactive_minimal_body (secret : String) (now : Int)
    (bl : Option MemoryBlacklist) (req : IntrospectRequest)
    (r : IntrospectTokenResponse)
    (h : introspectTokenEndpoint secret now bl req = .okJson r)
    (ha : r.active = false) :
    r = { active := false } ∧ introspectResponseKeys r = ["active"] := by
  unfold introspectTokenEndpoint at h
  rcases hbind : bindIntrospectRequest req with _ | tok
  · simp only [hbind] at h
    cases h
  · simp only [hbind] at h
    cases hv : jwtValidateToken secret now tok with
    | error e =>
      simp only [hv] at h
      have hr : ({ active := false } : IntrospectTokenResponse) = r := by
        injection h
      subst hr
      exact ⟨rfl, rfl⟩
    | ok claims =>
      simp only [hv] at h
      split at h
      · have hr : ({ active := false } : IntrospectTokenResponse) = r := by
          injection h
        subst hr
        exact ⟨rfl, rfl⟩
      · have hr : introspectActiveBody claims = r := by injection h
        subst hr
        simp [introspectActiveBody] at ha

/-- C8 witness: the theorem applied to a concrete garbage token. -/
theorem introspect_inactive_minimal_body_witness :
    introspectTokenEndpoint "s" 0 none (.token (.malformed "garbage.token.value") "")
      = .okJson { active := false }
    ∧ introspectResponseKeys { active := false } = ["active"] := by
  have h := introspect_inactive_minimal_body "s" 0 none
    (.token (.malformed "garbage.token.value") "") { active := false } rfl rfl
  exact ⟨rfl, h.2⟩

/-- Active claims whose role list contains an empty string, used by the
C9 counterexample. -/
def cexClaimsC9 : TokenClaims :=
  { userId := "u", subject := "a@x", roles := [""], permissions := []
    tokenType := "access", id := "", expiresAt := nsPerSecond * 100
    issuedAt := 0, issuer := "aegis" }

/-- C9 counterexample: for an active token whose role list is `[""]`,
the introspection scope is `""` while the claim's formula (every role
prefixed with `role:` verbatim) demands `"role:"` — `buildScopeString`
silently skips empty-string roles and permissions. -/
theorem introspect_scope_empty_role_counterexample :
    introspectTokenEndpoint "s" 0 none (.token (.signed cexClaimsC9 .hmac "s") "")
      = .okJson (introspectActiveBody cexClaimsC9)
    ∧ (introspectActiveBody cexClaimsC9).active = true
    ∧ (introspectActiveBody cexClaimsC9).scope = ""
    ∧ specScopeString cexClaimsC9.roles cexClaimsC9.permissions = "role:"
    ∧ (introspectActiveBody cexClaimsC9).scope
        ≠ specScopeString cexClaimsC9.roles cexClaimsC9.permissions := by
  decide

/-- C9 amended: for every active token, the introspection scope equals
the *non-empty* roles prefixed with `role:` followed by the *non-empty*
permissions verbatim, space-joined (empty-string entries are skipped);
empty role and permission lists give the empty scope string and no
error. -/
theorem introspect_scope_filters_empty_entries (secret : String) (now : Int)
    (bl : Option MemoryBlacklist) (c : TokenClaims) (hint : String)
    (r : IntrospectTokenResponse)
    (h : introspectTokenEndpoint secret now bl (.token (.signed c .hmac secret) hint)
      = .okJson r)
    (ha : r.active = true) :
    r.scope = String.intercalate " "
        ((c.roles.filter (fun x => x != "")).map (fun x => "role:" ++ x)
          ++ c.permissions.filter (fun x => x != ""))
    ∧ buildScopeString [] [] = "" := by
  refine ⟨?_, rfl⟩
  unfold introspectTokenEndpoint bindIntrospectRequest at h
  simp only [TokenStr.isEmptyStr, Bool.false_eq_true, if_false] at h
  cases hv : jwtValidateToken secret now (.signed c .hmac secret) with
  | error e =>
    simp only [hv] at h
    have hr : ({ active := false } : IntrospectTokenResponse) = r := by injection h
    subst hr
    simp at ha
  | ok claims =>
    have hc : claims = c := by
      unfold jwtValidateToken at hv
      simp only [ne_eq, not_true_eq_false, if_false] at hv
      split at hv
      · cases hv
      · injection hv with hv2
        exact hv2.symm
    simp only [hv, hc] at h
    split at h
    · have hr : ({ active := false } : IntrospectTokenResponse) = r := by injection h
      subst hr
      simp at ha
    · have hr : introspectActiveBody c = r := by injection h
      subst hr
      rw [show (introspectActiveBody c).scope
        = buildScopeString c.roles c.permissions from rfl]
      rw [buildScopeString_eq]

/-- C9 witness: the amended theorem applied to a concrete active token
with an empty-string role. -/
theorem introspect_scope_filters_empty_entries_witness :
    (introspectActiveBody cexClaimsC9).scope = String.intercalate " "
        ((cexClaimsC9.roles.filter (fun x => x != "")).map (fun x => "role:" ++ x)
          ++ cexClaimsC9.permissions.filter (fun x => x != ""))
    ∧ buildScopeString [] [] = "" :=
  introspect_scope_filters_empty_entries "s" 0 none cexClaimsC9 ""
    (introspectActiveBody cexClaimsC9) (by decide) rfl

/-- C10: with the global blacklist uninitialized (`nil`), the validate
and introspect endpoints skip the revocation check and report an
otherwise-valid token as valid/active, while the revoke endpoint
refuses every bound request with HTTP 500. -/
theorem nil_blacklist_skips_revocation_and_revoke_500 :
    (∀ (secret : String) (now : Int) (tok : TokenStr) (c : TokenClaims),
      jwtValidateToken secret now tok = .ok c →
        validateTokenEndpoint secret now none (.token tok) = .ok (validateOkBody c)
        ∧ introspectTokenEndpoint secret now none (.token tok "")
            = .okJson (introspectActiveBody c))
    ∧ (∀ (secret : String) (now : Int) (tok : TokenStr),
        bindTokenRequest (.token tok) = some tok →
          revokeTokenEndpoint secret now none (.token tok) = (.unavailable, none)
          ∧ RevokeHttpResponse.unavailable.status = 500) := by
  constructor
  · intro secret now tok c hv
    constructor
    · cases tok with
      | malformed s => simp [jwtValidateToken] at hv
      | signed cc alg s =>
        simp [validateTokenEndpoint, bindTokenRequest, TokenStr.isEmptyStr, hv]
    · cases tok with
      | malformed s => simp [jwtValidateToken] at hv
      | signed cc alg s =>
        simp [introspectTokenEndpoint, bindIntrospectRequest, TokenStr.isEmptyStr, hv]
  · intro secret now tok hb
    constructor
    · simp [revokeTokenEndpoint, hb]
    · rfl

/-- C10 witness: the theorem applied to a concrete valid token and the
nil blacklist. -/
theorem nil_blacklist_skips_revocation_and_revoke_500_witness :
    validateTokenEndpoint "s" 0 none (.token (.signed cexClaimsC4 .hmac "s"))
      = .ok (validateOkBody cexClaimsC4)
    ∧ introspectTokenEndpoint "s" 0 none (.token (.signed cexClaimsC4 .hmac "s") "")
      = .okJson (introspectActiveBody cexClaimsC4)
    ∧ revokeTokenEndpoint "s" 0 none (.token (.signed cexClaimsC4 .hmac "s"))
      = (.unavailable, none) := by
  have h1 := nil_blacklist_skips_revocation_and_revoke_500.1 "s" 0
    (.signed cexClaimsC4 .hmac "s") cexClaimsC4 rfl
  have h2 := nil_blacklist_skips_revocation_and_revoke_500.2 "s" 0
    (.signed cexClaimsC4 .hmac "s") (by decide)
  exact ⟨h1.1, h1.2, h2.1⟩

/-- The canonical UUID string used by the C3 scenario. -/
def cexUuidC3 : String := "00000000-0000-4000-8000-000000000001"

/-- A refresh token's claims carrying roles `["admin"]`, used by the C3
scenario. -/
def cexClaimsC3 : TokenClaims :=
  { userId := cexUuidC3, subject := "a@x", roles := ["admin"], permissions := ["p1"]
    tokenType := "refresh", id := "", expiresAt := nsPerSecond * 100
    issuedAt := 0, issuer := "aegis" }

/-- The stored user the C3 scenario's user store returns: same identity,
but roles `["viewer"]` and no permissions. -/
def cexUserC3 : StoredUser :=
  { id := cexUuidC3, subject := "a@x", roles := ["viewer"], permissions := [] }

/-- The C3 scenario's user store. -/
def cexStoreC3 : String → Option StoredUser :=
  fun uid => if uid = cexUuidC3 then some cexUserC3 else none

/-- The role list embedded in the access token of a successful refresh
response. -/
def rolesOfAccess : RefreshHttpResponse → Option (List String)
  | .okLogin _ pair => (pair.accessToken.claimsOf).map (fun c => c.roles)
  | _ => none

/-- C3 counterexample: a structurally valid, unexpired refresh token
embedding roles `["admin"]` is refreshed into a pair whose access token
carries roles `["viewer"]` — the roles of the user read from the user
store, not the token's; and with a store that does not know the user,
the same request is answered 401, so the operation does read the user
store. -/
theorem refresh_pair_roles_from_store_counterexample :
    rolesOfAccess (refreshTokenEndpoint cexStoreC3 "s" 0 DEFAULT_TOKEN_EXPIRATION
        0 0 0 0 0 0 (.token (.signed cexClaimsC3 .hmac "s"))) = some ["viewer"]
    ∧ cexClaimsC3.roles = ["admin"]
    ∧ (refreshTokenEndpoint (fun _ => none) "s" 0 DEFAULT_TOKEN_EXPIRATION
        0 0 0 0 0 0 (.token (.signed cexClaimsC3 .hmac "s"))).status = 401 := by
  decide

/-- C3 amended: for every structurally valid, unexpired refresh token,
the handler parses the user id out of the token's claims, reads that
user from the user store, and issues the new pair from the *stored*
user's id, subject, roles and permissions; when the user store does not
contain the user the request is rejected with `userNotFound` (HTTP 401). -/
theorem refresh_uses_stored_user_snapshot (store : String → Option StoredUser)
    (secret : String) (now E t1 t2 t3 t4 t5 t6 : Int) (c : TokenClaims) (uid : String)
    (hkind : c.tokenType = "refresh") (hexp : now < c.expiresAt)
    (huid : uuidParse c.userId = some uid) :
    (∀ user, store uid = some user →
      refreshTokenEndpoint store secret now E t1 t2 t3 t4 t5 t6
          (.token (.signed c .hmac secret))
        = .okLogin user (generateTokenPair user.id user.subject user.roles
            user.permissions E secret t1 t2 t3 t4 t5 t6))
    ∧ (store uid = none →
      refreshTokenEndpoint store secret now E t1 t2 t3 t4 t5 t6
          (.token (.signed c .hmac secret)) = .userNotFound) := by
  have hval : jwtValidateRefreshToken secret now (.signed c .hmac secret) = .ok c := by
    unfold jwtValidateRefreshToken jwtValidateToken
    simp [hkind, not_le.mpr hexp]
  constructor
  · intro user hu
    simp [refreshTokenEndpoint, bindTokenRequest, TokenStr.isEmptyStr, hval, huid, hu]
  · intro hu
    simp [refreshTokenEndpoint, bindTokenRequest, TokenStr.isEmptyStr, hval, huid, hu]

/-- C3 witness: the amended theorem applied to the concrete scenario. -/
theorem refresh_uses_stored_user_snapshot_witness :
    refreshTokenEndpoint cexStoreC3 "s" 0 DEFAULT_TOKEN_EXPIRATION 0 0 0 0 0 0
        (.token (.signed cexClaimsC3 .hmac "s"))
      = .okLogin cexUserC3 (generateTokenPair cexUserC3.id cexUserC3.subject
          cexUserC3.roles cexUserC3.permissions DEFAULT_TOKEN_EXPIRATION "s"
          0 0 0 0 0 0) :=
  (refresh_uses_stored_user_snapshot cexStoreC3 "s" 0 DEFAULT_TOKEN_EXPIRATION
    0 0 0 0 0 0 cexClaimsC3 cexUuidC3 rfl (by decide) (by decide)).1
    cexUserC3 (by decide)

/-- The claims of the access token produced by `GenerateTokenPair`
(read off `generateTokenWithType`): note `id = ""`. -/
def accessClaimsOfGen (u s : String) (r p : List String) (E t3 t4 : Int) : TokenClaims :=
  { userId := u, subject := s, roles := r, permissions := p
    tokenType := "access", id := ""
    expiresAt := jwtNumericDate (t3 + E), issuedAt := jwtNumericDate t4
    issuer := "aegis" }

/-- The claims of the refresh token produced by `GenerateTokenPair`:
note `id = ""`. -/
def refreshClaimsOfGen (u s : String) (r p : List String) (E t5 t6 : Int) : TokenClaims :=
  { userId := u, subject := s, roles := r, permissions := p
    tokenType := "refresh", id := ""
    expiresAt := jwtNumericDate (t5 + (E + REFRESH_TOKEN_EXTRA_TIME))
    issuedAt := jwtNumericDate t6, issuer := "aegis" }

/-- Shape of the access token of a generated pair. -/
theorem genPair_accessToken_shape (u s : String) (r p : List String)
    (E : Int) (sec : String) (t1 t2 t3 t4 t5 t6 : Int) :
    (generateTokenPair u s r p E sec t1 t2 t3 t4 t5 t6).accessToken
      = .signed (accessClaimsOfGen u s r p E t3 t4) .hmac sec := rfl

/-- Shape of the refresh token of a generated pair. -/
theorem genPair_refreshToken_shape (u s : String) (r p : List String)
    (E : Int) (sec : String) (t1 t2 t3 t4 t5 t6 : Int) :
    (generateTokenPair u s r p E sec t1 t2 t3 t4 t5 t6).refreshToken
      = .signed (refreshClaimsOfGen u s r p E t5 t6) .hmac sec := rfl

/-- Revoking an unexpired token signed with the server secret succeeds
(fresh revocation or idempotent repeat) and leaves a blacklist on which
the token's JTI is blacklisted. -/
theorem revoke_signed_ok (secret : String) (bl : MemoryBlacklist) (now0 : Int)
    (c : TokenClaims) (hexp : now0 < c.expiresAt) :
    (∃ msg, (revokeTokenEndpoint secret now0 (some bl)
        (.token (.signed c .hmac secret))).1 = .success msg)
    ∧ ∃ bl2, (revokeTokenEndpoint secret now0 (some bl)
          (.token (.signed c .hmac secret))).2 = some bl2
        ∧ bl2.isBlacklisted c.id = true := by
  have hval : jwtValidateToken secret now0 (.signed c .hmac secret) = .ok c := by
    unfold jwtValidateToken
    simp [not_le.mpr hexp]
  cases hb : bl.isBlacklisted c.id with
  | true =>
    constructor
    · exact ⟨"Token already revoked",
        by simp [revokeTokenEndpoint, bindTokenRequest, TokenStr.isEmptyStr, hval, hb]⟩
    · exact ⟨bl,
        by simp [revokeTokenEndpoint, bindTokenRequest, TokenStr.isEmptyStr, hval, hb], hb⟩
  | false =>
    constructor
    · exact ⟨"Token revoked successfully",
        by simp [revokeTokenEndpoint, bindTokenRequest, TokenStr.isEmptyStr, hval, hb]⟩
    · exact ⟨bl.add c.id (nsPerSecond * (c.expiresAt / nsPerSecond)) now0,
        by simp [revokeTokenEndpoint, bindTokenRequest, TokenStr.isEmptyStr, hval, hb],
        MemoryBlacklist.isBlacklisted_add_self bl c.id _ now0⟩

/-- An unexpired token signed with the server secret whose JTI is on the
blacklist is reported revoked by validate and inactive by introspect. -/
theorem validate_introspect_revoked (secret : String) (now1 : Int)
    (bl2 : MemoryBlacklist) (c : TokenClaims) (hexp : now1 < c.expiresAt)
    (hbl : bl2.isBlacklisted c.id = true) :
    validateTokenEndpoint secret now1 (some bl2) (.token (.signed c .hmac secret))
      = .ok ⟨false, none, none, "token revoked"⟩
    ∧ introspectTokenEndpoint secret now1 (some bl2)
        (.token (.signed c .hmac secret) "")
      = .okJson { active := false } := by
  have hval : jwtValidateToken secret now1 (.signed c .hmac secret) = .ok c := by
    unfold jwtValidateToken
    simp [not_le.mpr hexp]
  constructor
  · simp [validateTokenEndpoint, bindTokenRequest, TokenStr.isEmptyStr, hval, hbl]
  · simp [introspectTokenEndpoint, bindIntrospectRequest, TokenStr.isEmptyStr, hval, hbl]

/-- C2: with the global blacklist initialized, after one successful
revoke call on the access token of any generated pair, *every* token
produced by `GenerateTokenPair` — the revoked pair's two tokens and both
tokens of any other pair, issued before or after — is reported revoked
by the validate endpoint (`valid=false`, error `"token revoked"`) and
inactive by the introspect endpoint, because every generated token
carries the same empty JTI and that single value is the blacklist key. -/
theorem revoking_one_generated_token_revokes_all (secret : String)
    (bl : MemoryBlacklist) (u1 s1 : String) (r1 p1 : List String)
    (E1 a1 a2 a3 a4 a5 a6 : Int) (u2 s2 : String) (r2 p2 : List String)
    (E2 b1 b2 b3 b4 b5 b6 : Int) (now0 : Int)
    (hrev : now0 < jwtNumericDate (a3 + E1)) :
    (∃ msg, (revokeTokenEndpoint secret now0 (some bl)
        (.token (generateTokenPair u1 s1 r1 p1 E1 secret a1 a2 a3 a4 a5 a6).accessToken)).1
      = .success msg)
    ∧ (∀ t,
        (t = (generateTokenPair u1 s1 r1 p1 E1 secret a1 a2 a3 a4 a5 a6).accessToken
          ∨ t = (generateTokenPair u1 s1 r1 p1 E1 secret a1 a2 a3 a4 a5 a6).refreshToken
          ∨ t = (generateTokenPair u2 s2 r2 p2 E2 secret b1 b2 b3 b4 b5 b6).accessToken
          ∨ t = (generateTokenPair u2 s2 r2 p2 E2 secret b1 b2 b3 b4 b5 b6).refreshToken) →
        ∀ (now1 : Int) (c : TokenClaims), t.claimsOf = some c → now1 < c.expiresAt →
          validateTokenEndpoint secret now1
              (revokeTokenEndpoint secret now0 (some bl)
                (.token (generateTokenPair u1 s1 r1 p1 E1 secret a1 a2 a3 a4 a5 a6).accessToken)).2
              (.token t)
            = .ok ⟨false, none, none, "token revoked"⟩
          ∧ introspectTokenEndpoint secret now1
              (revokeTokenEndpoint secret now0 (some bl)
                (.token (generateTokenPair u1 s1 r1 p1 E1 secret a1 a2 a3 a4 a5 a6).accessToken)).2
              (.token t "")
            = .okJson { active := false }) := by
  obtain ⟨hsucc, bl2, hbl2, hblk⟩ :=
    revoke_signed_ok secret bl now0 (accessClaimsOfGen u1 s1 r1 p1 E1 a3 a4) hrev
  simp only [genPair_accessToken_shape, genPair_refreshToken_shape]
  refine ⟨hsucc, ?_⟩
  intro t ht now1 c hc hexp
  rw [hbl2]
  rcases ht with h | h | h | h <;> subst h <;>
    simp only [TokenStr.claimsOf, Option.some.injEq] at hc <;> subst hc <;>
    exact validate_introspect_revoked secret now1 bl2 _ hexp hblk

/-- C2 witness: the theorem applied to two concrete issuances, read off
at the refresh token of the *second* pair after revoking the access
token of the first. -/
theorem revoking_one_generated_token_revokes_all_witness :
    validateTokenEndpoint "s" 0
        (revokeTokenEndpoint "s" 0 (some MemoryBlacklist.empty)
          (.token (generateTokenPair "u1" "s1" [] [] (nsPerSecond * 100) "s"
            0 0 0 0 0 0).accessToken)).2
        (.token (generateTokenPair "u2" "s2" [] [] (nsPerSecond * 100) "s"
          0 0 0 0 0 0).refreshToken)
      = .ok ⟨false, none, none, "token revoked"⟩
    ∧ introspectTokenEndpoint "s" 0
        (revokeTokenEndpoint "s" 0 (some MemoryBlacklist.empty)
          (.token (generateTokenPair "u1" "s1" [] [] (nsPerSecond * 100) "s"
            0 0 0 0 0 0).accessToken)).2
        (.token (generateTokenPair "u2" "s2" [] [] (nsPerSecond * 100) "s"
          0 0 0 0 0 0).refreshToken "")
      = .okJson { active := false } :=
  (revoking_one_generated_token_revokes_all "s" MemoryBlacklist.empty
      "u1" "s1" [] [] (nsPerSecond * 100) 0 0 0 0 0 0
      "u2" "s2" [] [] (nsPerSecond * 100) 0 0 0 0 0 0 0 (by decide)).2
    (generateTokenPair "u2" "s2" [] [] (nsPerSecond * 100) "s" 0 0 0 0 0 0).refreshToken
    (Or.inr (Or.inr (Or.inr rfl))) 0
    (refreshClaimsOfGen "u2" "s2" [] [] (nsPerSecond * 100) 0 0) rfl (by decide)
